import Mathlib

/-!
Shallow embedding of the LST protocol dispatch and resource-URI routing logic
of the monad-mcp server (src/common/lst.rs, src/services/constants.rs).

Conventions of the embedding:
* Ethereum 256-bit integers (U256) are `Nat` with explicit `2 ^ 256` bounds
  where the source library checks overflow; addresses (H160) are `Nat`.
* External on-chain calls (balance_of, total_assets, calculate_tvl, the
  stake/unstake transactions) are oracles passed as function arguments.
* `anyhow` errors are modelled by the string their `Display` renders, which
  is the outermost `.context(...)` message; wrapping an error in a new
  context replaces that display string.
* A Rust panic (out-of-bounds slice index) is modelled as `none`.
* Side effects that touch the chain are recorded in an event trace
  (`Event`), so that claims about "exactly one submission", "exactly one
  confirmation awaited" and "read-only, no submission" are statable.
-/

/-- The apostrophe character, used inside message strings that the Rust
source builds with quoted interpolations. -/
def aposC : Char := Char.ofNat 39

/-- Quote a string between apostrophes, as the Rust format strings do. -/
def quoteS (s : String) : String := String.mk (aposC :: s.data ++ [aposC])

/-- Value of an ASCII hex digit, `none` for any other character.  Mirrors
hex decoding of `rustc-hex` used by `H160::from_str`. -/
def hexVal (c : Char) : Option Nat :=
  if 48 ≤ c.toNat ∧ c.toNat ≤ 57 then some (c.toNat - 48)
  else if 97 ≤ c.toNat ∧ c.toNat ≤ 102 then some (c.toNat - 87)
  else if 65 ≤ c.toNat ∧ c.toNat ≤ 70 then some (c.toNat - 55)
  else none

/-- Big-endian fold of hex digits into a `Nat`; `none` on a non-hex char. -/
def hexListVal (cs : List Char) : Option Nat :=
  cs.foldlM (fun a c => (hexVal c).map (fun v => a * 16 + v)) 0

/-- `Address::from_str` of the `ethers` H160 type: an optional `0x` prefix
followed by exactly 40 hex digits. -/
def parseAddress (s : String) : Option Nat :=
  let cs := if s.data.take 2 = ['0', 'x'] then s.data.drop 2 else s.data
  if cs.length = 40 then hexListVal cs else none

/-- src/services/constants.rs: `MONAD_TESTNET_CHAIN_ID`. -/
def MONAD_TESTNET_CHAIN_ID : Nat := 10143

/-- src/services/constants.rs: `APRMON_ADDRESS` (the string is parsed with
`.parse().unwrap()`; the unwrap is justified by `constants_parse`). -/
def APRMON_ADDRESS : Nat :=
  (parseAddress "0xb2f82D0f38dc453D596Ad40A37799446Cc89274A").getD 0

/-- src/services/constants.rs: `GMON_ADDRESS`. -/
def GMON_ADDRESS : Nat :=
  (parseAddress "0xaEef2f6B429Cb59C9B2D7bB2141ADa993E8571c3").getD 0

/-- src/services/constants.rs: `GMON_STAKEMANAGER_ADDRESS`. -/
def GMON_STAKEMANAGER_ADDRESS : Nat :=
  (parseAddress "0x2c9C959516e9AAEdB2C748224a41249202ca8BE7").getD 0

/-- src/services/constants.rs: `SHMON_ADDRESS`. -/
def SHMON_ADDRESS : Nat :=
  (parseAddress "0x3a98250F98Dd388C211206983453837C8365BDc1").getD 0

/-- src/common/lst.rs: `enum LstProtocol`. -/
inductive LstProtocol where
  | AprMON
  | GMON
  | SHMON
deriving DecidableEq, Repr

/-- src/common/lst.rs: `impl fmt::Display for LstProtocol` (the string each
variant writes). -/
def LstProtocol.display : LstProtocol → String
  | .AprMON => "aprMON"
  | .GMON => "gMON"
  | .SHMON => "shMON"

/-- src/common/lst.rs: `impl TryFrom<&str> for LstProtocol`.  The Rust
`match` on the string is an equality chain over the three literals. -/
def LstProtocol.tryFrom (value : String) : Except String LstProtocol :=
  if value = "aprMON" then .ok .AprMON
  else if value = "gMON" then .ok .GMON
  else if value = "shMON" then .ok .SHMON
  else .error "Invalid LST protocol"

/-- src/common/lst.rs: `LstProtocol::address`. -/
def LstProtocol.address : LstProtocol → Nat
  | .AprMON => APRMON_ADDRESS
  | .GMON => GMON_STAKEMANAGER_ADDRESS
  | .SHMON => SHMON_ADDRESS

/-- src/common/lst.rs: `LstProtocol::token_address`. -/
def LstProtocol.token_address : LstProtocol → Nat
  | .AprMON => APRMON_ADDRESS
  | .GMON => GMON_ADDRESS
  | .SHMON => SHMON_ADDRESS

/-- src/common/lst.rs: `LstProtocol::description` (exact strings; the gMON
text contains an apostrophe, built here via `aposC`). -/
def LstProtocol.description : LstProtocol → String
  | .AprMON =>
    "aPriori is the leading MEV-powered liquid staking platform on Monad."
  | .GMON =>
    "Magma enables Monad token holders to earn staking rewards while remaining liquid through Magma" ++
      String.mk [aposC] ++ "s Liquid Staking token, gMON."
  | .SHMON =>
    "shMONAD is an innovative Liquid Staking Token (LST) built on top of MON (Monad). Designed for users who wish to stake their MON while retaining liquidity, shMONAD allows holders to convert MON into shMON, bond their tokens within distinct policies, and later unbond them after an escrow period."

/-- Decimal digit character for a value below 10 (ASCII 48 + d). -/
def digitChar (d : Nat) : Char := Char.ofNat (48 + d)

/-- Fuel-driven digit expansion (structural recursion so that the kernel
can evaluate it); `natDecChars` supplies enough fuel. -/
def natDecCharsAux : Nat → Nat → List Char
  | 0, _ => []
  | fuel + 1, n =>
    if n < 10 then [digitChar n]
    else natDecCharsAux fuel (n / 10) ++ [digitChar (n % 10)]

/-- Most-significant-first decimal digit characters of a `Nat`, as produced
by the `Display` implementations of Rust integers and of the `uint` U256
type (no leading zeros, `0` renders as "0"). -/
def natDecChars (n : Nat) : List Char := natDecCharsAux (n + 1) n

/-- Hex digit character (lowercase), as produced by `hex::encode`. -/
def hexDigitChar (d : Nat) : Char :=
  if d < 10 then Char.ofNat (48 + d) else Char.ofNat (87 + d)

/-- Fuel-driven hex expansion, structural like `natDecCharsAux`. -/
def natHexCharsAux : Nat → Nat → List Char
  | 0, _ => []
  | fuel + 1, n =>
    if n < 16 then [hexDigitChar n]
    else natHexCharsAux fuel (n / 16) ++ [hexDigitChar (n % 16)]

/-- Most-significant-first lowercase hex characters of a `Nat`. -/
def natHexChars (n : Nat) : List Char := natHexCharsAux (n + 1) n

/-- Left-pad a character list with ASCII zeros up to width `w`, as the Rust
format specifier `{:0>w}` does (no-op when already at least `w` long). -/
def padLeftZeros (cs : List Char) (w : Nat) : List Char :=
  List.replicate (w - cs.length) (Char.ofNat 48) ++ cs

/-- `ethers::utils::encode_prefixed` applied to a 32-byte transaction hash:
"0x" followed by the 64 lowercase hex characters of the bytes. -/
def encodePrefixed (h : Nat) : String :=
  String.mk ('0' :: 'x' :: padLeftZeros (natHexChars h) 64)

/-- `ethers::utils::format_units(amount, "ether")` on a U256 `amount`
(external library collaborator, modelled from its algorithm): renders
`amount / 10^18`, a dot, then `amount % 10^18` left-padded with zeros to 18
places. -/
def formatUnitsEther (b : Nat) : String :=
  String.mk (natDecChars (b / 10 ^ 18) ++ ['.'] ++
    padLeftZeros (natDecChars (b % 10 ^ 18)) 18)

/-- Result type of `ethers::utils::parse_units`: a parsed U256 or I256. -/
inductive ParseVal where
  | u256 (n : Nat)
  | i256 (n : Int)
deriving DecidableEq, Repr

/-- `U256::from_dec_str` (the `uint` crate): fold decimal digits with a
step-wise overflow check against `2 ^ 256`; any non-digit character is an
error; the empty string parses to 0. -/
def fromDecStrCore : List Char → Nat → Except String Nat
  | [], acc => .ok acc
  | c :: cs, acc =>
    if 48 ≤ c.toNat ∧ c.toNat ≤ 57 then
      if acc * 10 + (c.toNat - 48) < 2 ^ 256 then
        fromDecStrCore cs (acc * 10 + (c.toNat - 48))
      else .error "number too large to fit in target type"
    else .error "a character is not in the range 0-9"

/-- `U256::from_dec_str` entry point. -/
def fromDecStr (cs : List Char) : Except String Nat := fromDecStrCore cs 0

/-- `I256::from_dec_str`: optional leading minus sign, decimal digits,
signed 256-bit range check. -/
def i256FromDecStr (cs : List Char) : Except String Int :=
  if cs.head? = some '-' then
    match fromDecStr cs.tail with
    | .error e => .error e
    | .ok n => if n ≤ 2 ^ 255 then .ok (-(n : Int)) else .error "number too large to fit in target type"
  else
    match fromDecStr cs with
    | .error e => .error e
    | .ok n => if n < 2 ^ 255 then .ok (n : Int) else .error "number too large to fit in target type"

/-- `I256::checked_mul`, erroring outside the signed 256-bit range. -/
def i256CheckedMul (a b : Int) : Except String Int :=
  if -(2 ^ 255 : Int) ≤ a * b ∧ a * b < 2 ^ 255 then .ok (a * b)
  else .error "overflow"

/-- `ethers::utils::parse_units(amount, "ether")` on a string amount
(external library collaborator, modelled from its algorithm): strip
underscores, note a leading minus, delete the first dot and count the
characters after it (`dec_len`); when `dec_len` exceeds 18 the tail is
truncated; otherwise the parsed integer is scaled by `10^(18 - dec_len)`
with an overflow check.  Characters are used where Rust indexes bytes; the
inputs of interest are ASCII, where the two coincide. -/
def parseUnitsEther (s : String) : Except String ParseVal :=
  let cs := s.data.filter (fun c => c ≠ '_')
  let neg : Bool := cs.head? = some '-'
  let pre := cs.takeWhile (fun c => c ≠ '.')
  let suf := cs.dropWhile (fun c => c ≠ '.')
  let body := pre ++ suf.tail
  let decLen := suf.tail.length
  if 18 < decLen then
    let body2 := body.take (body.length - (decLen - 18))
    if neg then
      match i256FromDecStr body2 with
      | .error e => .error e
      | .ok n => .ok (.i256 n)
    else
      match fromDecStr body2 with
      | .error e => .error e
      | .ok n => .ok (.u256 n)
  else if neg then
    match i256FromDecStr body with
    | .error e => .error e
    | .ok n =>
      match i256CheckedMul n ((10 : Int) ^ (18 - decLen)) with
      | .error e => .error e
      | .ok m => .ok (.i256 m)
  else
    match fromDecStr body with
    | .error e => .error e
    | .ok a =>
      if a * 10 ^ (18 - decLen) < 2 ^ 256 then .ok (.u256 (a * 10 ^ (18 - decLen)))
      else .error "overflow"

/-- `impl From<ParseUnits> for U256`: the U256 value, or the raw two's
complement bits of an I256. -/
def ParseVal.toU256 : ParseVal → Nat
  | .u256 n => n
  | .i256 n => (n % (2 ^ 256 : Int)).toNat

/-- `ethers::types::TransactionReceipt`, reduced to the field the code
reads. -/
structure TransactionReceipt where
  transaction_hash : Nat
deriving DecidableEq, Repr

/-- Chain-touching effects of one invocation, recorded in order:
a transaction submission (`send` on a contract call, with the entry point
name and the U256 argument/value), an await of `n` confirmations, or a
read-only `call` (eth_call) of a view method. -/
inductive Event where
  | send (p : LstProtocol) (entry : String) (amount : Nat)
  | confirmWait (n : Nat)
  | readCall (p : LstProtocol) (method : String)
deriving DecidableEq, Repr

/-- Whether an event is a transaction submission. -/
def Event.isSend : Event → Bool
  | .send _ _ _ => true
  | _ => false

/-- Whether an event is a confirmation await. -/
def Event.isConfirm : Event → Bool
  | .confirmWait _ => true
  | _ => false

/-- Number of transaction submissions in a trace. -/
def countSends (tr : List Event) : Nat := (tr.filter Event.isSend).length

/-- Number of confirmation awaits in a trace. -/
def countConfirms (tr : List Event) : Nat := (tr.filter Event.isConfirm).length

/-- Outcome of the one on-chain send of a stake/unstake invocation, as the
RPC collaborator resolves it: the `send()` future errors, the
`confirmations(1)` future errors, or confirmation completes with
`Ok(Option<TransactionReceipt>)`. -/
inductive ChainOutcome where
  | sendError (msg : String)
  | confirmError (msg : String)
  | confirmed (receipt : Option TransactionReceipt)
deriving DecidableEq, Repr

/-- Contract entry point `LstProtocol::stake` submits, per protocol
(aprMON `deposit`, gMON `deposit_mon`, shMON `deposit`). -/
def stakeEntry : LstProtocol → String
  | .AprMON => "deposit"
  | .GMON => "deposit_mon"
  | .SHMON => "deposit"

/-- Contract entry point `LstProtocol::unstake` submits, per protocol
(aprMON `request_redeem`, gMON `withdraw_mon`, shMON `redeem`). -/
def unstakeEntry : LstProtocol → String
  | .AprMON => "request_redeem"
  | .GMON => "withdraw_mon"
  | .SHMON => "redeem"

/-- `anyhow` context on a failed `send()` in `LstProtocol::stake`. -/
def stakeSendCtx (_p : LstProtocol) : String := "Failed to deposit"

/-- `anyhow` context on a failed `confirmations(1)` in
`LstProtocol::stake`. -/
def stakeConfirmCtx (_p : LstProtocol) : String := "Failed to confirm deposit"

/-- `anyhow` context on a failed `send()` in `LstProtocol::unstake` (the
gMON arm reuses the deposit wording in the source). -/
def unstakeSendCtx : LstProtocol → String
  | .AprMON => "Failed to request redeem"
  | .GMON => "Failed to deposit"
  | .SHMON => "Failed to request redeem"

/-- `anyhow` context on a failed `confirmations(1)` in
`LstProtocol::unstake`. -/
def unstakeConfirmCtx : LstProtocol → String
  | .AprMON => "Failed to confirm request redeem tx"
  | .GMON => "Failed to confirm deposit"
  | .SHMON => "Failed to confirm request redeem tx"

/-- src/common/lst.rs: `LstProtocol::stake`.  Builds the protocol-specific
deposit call, sends it once with `amount` attached as value, awaits one
confirmation, and wraps failures in the contexts above (the anyhow display
of the underlying RPC error is replaced by the context string). -/
def LstProtocol.stake (p : LstProtocol) (amount : Nat) (chain : ChainOutcome) :
    Except String (Option TransactionReceipt) × List Event :=
  match chain with
  | .sendError _m => (.error (stakeSendCtx p), [.send p (stakeEntry p) amount])
  | .confirmError _m =>
    (.error (stakeConfirmCtx p), [.send p (stakeEntry p) amount, .confirmWait 1])
  | .confirmed r => (.ok r, [.send p (stakeEntry p) amount, .confirmWait 1])

/-- src/common/lst.rs: `LstProtocol::unstake`.  Same shape as `stake` with
the redeem/withdraw entry points and contexts. -/
def LstProtocol.unstake (p : LstProtocol) (amount : Nat) (chain : ChainOutcome) :
    Except String (Option TransactionReceipt) × List Event :=
  match chain with
  | .sendError _m => (.error (unstakeSendCtx p), [.send p (unstakeEntry p) amount])
  | .confirmError _m =>
    (.error (unstakeConfirmCtx p), [.send p (unstakeEntry p) amount, .confirmWait 1])
  | .confirmed r => (.ok r, [.send p (unstakeEntry p) amount, .confirmWait 1])

/-- View method `LstProtocol::tvl` calls per protocol. -/
def tvlMethod : LstProtocol → String
  | .AprMON => "total_assets"
  | .GMON => "calculate_tvl"
  | .SHMON => "total_assets"

/-- `anyhow` context `LstProtocol::tvl` adds on a failed call. -/
def tvlCtx : LstProtocol → String
  | .AprMON => "Failed to get total assets"
  | .GMON => "Failed to get total supply"
  | .SHMON => "Failed to get total supply"

/-- src/common/lst.rs: `LstProtocol::tvl`: one read-only call of the
protocol-specific view method, its error wrapped in `tvlCtx`. -/
def LstProtocol.tvl (p : LstProtocol) (tvlO : LstProtocol → Except String Nat) :
    Except String Nat × List Event :=
  match tvlO p with
  | .error _m => (.error (tvlCtx p), [.readCall p (tvlMethod p)])
  | .ok v => (.ok v, [.readCall p (tvlMethod p)])

/-- src/common/lst.rs: `LstProtocol::read_balance`: one read-only
`balance_of` call on the token contract, its error wrapped in the context
"Failed to get balance". -/
def LstProtocol.read_balance (p : LstProtocol)
    (balO : LstProtocol → Nat → Except String Nat) (owner : Nat) :
    Except String Nat × List Event :=
  match balO p owner with
  | .error _m => (.error "Failed to get balance", [.readCall p "balance_of"])
  | .ok v => (.ok v, [.readCall p "balance_of"])

/-- src/common/lst.rs: `Lst::protocol_tvl`: wraps `LstProtocol::tvl` in the
context "Failed to get TVL". -/
def Lst.protocol_tvl (tvlO : LstProtocol → Except String Nat) (p : LstProtocol) :
    Except String Nat × List Event :=
  match p.tvl tvlO with
  | (.error _e, tr) => (.error "Failed to get TVL", tr)
  | (.ok v, tr) => (.ok v, tr)

/-- src/common/lst.rs: `Lst::read_balance`: wraps
`LstProtocol::read_balance` in the context "Failed to read balance". -/
def Lst.read_balance (balO : LstProtocol → Nat → Except String Nat)
    (p : LstProtocol) (owner : Nat) : Except String Nat × List Event :=
  match p.read_balance balO owner with
  | (.error _e, tr) => (.error "Failed to read balance", tr)
  | (.ok v, tr) => (.ok v, tr)

/-- Kinds of MCP errors the handler produces. -/
inductive McpErrorKind where
  | invalidParams
  | internalError
  | resourceNotFound
deriving DecidableEq, Repr

/-- An MCP error: its kind and the message the handler attaches. -/
structure McpErr where
  kind : McpErrorKind
  msg : String
deriving DecidableEq, Repr

/-- src/common/lst.rs: `StakeRequest` (also the parameter struct of the
`unstake` tool in the source). -/
structure StakeRequest where
  protocol : LstProtocol
  private_key : String
  amount : String
deriving DecidableEq, Repr

/-- src/common/lst.rs: the `stake` tool of `Lst`.  `parseKey` stands for
`private_key.parse::<LocalWallet>()` followed by `.address()` (external
signer library): it yields the signer address on success.  The wallet
construction and `SignerMiddleware::new` make no network call, so the trace
stays empty until the protocol-specific send. -/
def Lst.stake (parseKey : String → Except String Nat) (chain : ChainOutcome)
    (req : StakeRequest) : Except McpErr String × List Event :=
  match parseKey req.private_key with
  | .error e =>
    (.error ⟨.invalidParams, "Failed to parse private key: " ++ e⟩, [])
  | .ok _signer_address =>
    match parseUnitsEther req.amount with
    | .error e =>
      (.error ⟨.invalidParams,
        "Failed to parse amount " ++ quoteS req.amount ++ ": " ++ e⟩, [])
    | .ok pv =>
      match req.protocol.stake pv.toU256 chain with
      | (.error e, tr) => (.error ⟨.internalError, "Staking failed: " ++ e⟩, tr)
      | (.ok none, tr) =>
        (.error ⟨.internalError, "Staking failed: no receipt returned"⟩, tr)
      | (.ok (some receipt), tr) =>
        (.ok ("Staked " ++ req.amount ++ " " ++ req.protocol.display ++
          " tokens successfully. Transaction hash: " ++
          encodePrefixed receipt.transaction_hash), tr)

/-- src/common/lst.rs: the `unstake` tool of `Lst` (its internal-error
prefixes reuse the "Staking failed" wording of the source). -/
def Lst.unstake (parseKey : String → Except String Nat) (chain : ChainOutcome)
    (req : StakeRequest) : Except McpErr String × List Event :=
  match parseKey req.private_key with
  | .error e =>
    (.error ⟨.invalidParams, "Failed to parse private key: " ++ e⟩, [])
  | .ok _signer_address =>
    match parseUnitsEther req.amount with
    | .error e =>
      (.error ⟨.invalidParams,
        "Failed to parse amount " ++ quoteS req.amount ++ ": " ++ e⟩, [])
    | .ok pv =>
      match req.protocol.unstake pv.toU256 chain with
      | (.error e, tr) => (.error ⟨.internalError, "Staking failed: " ++ e⟩, tr)
      | (.ok none, tr) =>
        (.error ⟨.internalError, "Staking failed: no receipt returned"⟩, tr)
      | (.ok (some receipt), tr) =>
        (.ok ("Unstaked " ++ req.amount ++ " " ++ req.protocol.display ++
          " tokens successfully. Transaction hash: " ++
          encodePrefixed receipt.transaction_hash), tr)

/-- Rust `str::split(sep)`: split at every separator, keeping empty pieces;
the empty string yields one empty piece. -/
def splitChars (sep : Char) : List Char → List (List Char)
  | [] => [[]]
  | c :: cs =>
    if c = sep then [] :: splitChars sep cs
    else
      match splitChars sep cs with
      | [] => [[c]]
      | p :: ps => (c :: p) :: ps

/-- `uri.split(sep).collect::<Vec<&str>>()` on a Lean string. -/
def splitStr (sep : Char) (s : String) : List String :=
  (splitChars sep s.data).map String.mk

/-- The routing body of `Lst::read_resource` after the split: guards
`parts.len() >= 2 && parts[0] == "evm:"`, then reads `parts[2]` with no
length guard — when that index is out of bounds the Rust code panics,
modelled as result `none`.  The five structural patterns follow in source
order. -/
def routeParts (tvlO : LstProtocol → Except String Nat)
    (balO : LstProtocol → Nat → Except String Nat) (parts : List String) :
    Option (Except McpErr String) × List Event :=
  if 2 ≤ parts.length ∧ parts.getD 0 "" = "evm:" then
    match parts[2]? with
    | none => (none, [])
    | some network =>
      if network ≠ "monadTestnet" then
        (some (.error ⟨.resourceNotFound, "Unsupported network"⟩), [])
      else if parts.length = 4 ∧ parts.getD 3 "" = "lsts" then
        (some (.ok "Available LST protocols: aprMON, gMON, shMON"), [])
      else if parts.length = 5 ∧ parts.getD 3 "" = "lsts" then
        match LstProtocol.tryFrom (parts.getD 4 "") with
        | .error e =>
          (some (.error ⟨.invalidParams,
            "Failed to parse protocol " ++ quoteS (parts.getD 4 "") ++ ": " ++ e⟩), [])
        | .ok p => (some (.ok p.description), [])
      else if parts.length = 6 ∧ parts.getD 3 "" = "lsts" ∧ parts.getD 5 "" = "tvl" then
        match LstProtocol.tryFrom (parts.getD 4 "") with
        | .error e =>
          (some (.error ⟨.invalidParams,
            "Failed to parse protocol " ++ quoteS (parts.getD 4 "") ++ ": " ++ e⟩), [])
        | .ok p =>
          match Lst.protocol_tvl tvlO p with
          | (.error e, tr) =>
            (some (.error ⟨.internalError, "Failed to get TVL: " ++ e⟩), tr)
          | (.ok v, tr) =>
            (some (.ok ("TVL: " ++ formatUnitsEther v ++ " ether")), tr)
      else if parts.length = 8 ∧ parts.getD 3 "" = "address" ∧
          parts.getD 5 "" = "lsts" ∧ parts.getD 7 "" = "balance" then
        match parseAddress (parts.getD 4 "") with
        | none =>
          (some (.error ⟨.invalidParams, "Invalid address"⟩), [])
        | some addr =>
          match LstProtocol.tryFrom (parts.getD 6 "") with
          | .error e =>
            (some (.error ⟨.invalidParams, "Failed to parse protocol: " ++ e⟩), [])
          | .ok p =>
            match Lst.read_balance balO p addr with
            | (.error e, tr) =>
              (some (.error ⟨.internalError, "Failed to get balance: " ++ e⟩), tr)
            | (.ok v, tr) =>
              (some (.ok ("Balance: " ++ formatUnitsEther v ++ " " ++ parts.getD 6 "")), tr)
      else (some (.error ⟨.resourceNotFound, "resource_not_found"⟩), [])
  else (some (.error ⟨.resourceNotFound, "resource_not_found"⟩), [])

/-- src/common/lst.rs: `Lst::read_resource`: the exact match on
`evm://networks` first, then the positional routing on the
slash-separated parts. -/
def Lst.read_resource (tvlO : LstProtocol → Except String Nat)
    (balO : LstProtocol → Nat → Except String Nat) (uri : String) :
    Option (Except McpErr String) × List Event :=
  if uri = "evm://networks" then
    (some (.ok "Supported networks: monadTestnet"), [])
  else routeParts tvlO balO (splitStr '/' uri)

/-- A TVL oracle whose calls always succeed with 0, for closed instances. -/
def tvlStub : LstProtocol → Except String Nat := fun _ => .ok 0

/-- A balance oracle whose calls always succeed with 0. -/
def balStub : LstProtocol → Nat → Except String Nat := fun _ _ => .ok 0

/-- A key-parse oracle that accepts every key with address 1. -/
def keyStub : String → Except String Nat := fun _ => .ok 1

/-- A key-parse oracle that rejects every key. -/
def keyFailStub : String → Except String Nat :=
  fun _ => .error "invalid private key"


/-- Value of a most-significant-first decimal digit string, folded onto an
accumulator; the reference function for `fromDecStrCore`. -/
def decValAcc : List Char → Nat → Nat
  | [], acc => acc
  | c :: cs, acc => decValAcc cs (acc * 10 + (c.toNat - 48))

theorem decValAcc_append (xs : List Char) : ∀ (ys : List Char) (acc : Nat),
    decValAcc (xs ++ ys) acc = decValAcc ys (decValAcc xs acc) := by
  induction xs with
  | nil => intro ys acc; rfl
  | cons c cs ih => intro ys acc; exact ih ys (acc * 10 + (c.toNat - 48))

theorem decValAcc_eq (cs : List Char) : ∀ acc : Nat,
    decValAcc cs acc = acc * 10 ^ cs.length + decValAcc cs 0 := by
  induction cs with
  | nil =>
    intro acc
    show acc = acc * 10 ^ 0 + 0
    ring
  | cons c cs ih =>
    intro acc
    have h1 := ih (acc * 10 + (c.toNat - 48))
    have h2 := ih (c.toNat - 48)
    have e1 : decValAcc (c :: cs) acc = decValAcc cs (acc * 10 + (c.toNat - 48)) := rfl
    have e2 : decValAcc (c :: cs) 0 = decValAcc cs (c.toNat - 48) := by
      show decValAcc cs (0 * 10 + (c.toNat - 48)) = decValAcc cs (c.toNat - 48)
      norm_num
    rw [e1, h1, e2, h2, List.length_cons]
    ring

theorem decValAcc_le (cs : List Char) : ∀ acc : Nat, acc ≤ decValAcc cs acc := by
  induction cs with
  | nil => intro acc; exact Nat.le_refl _
  | cons c cs ih =>
    intro acc
    calc acc ≤ acc * 10 + (c.toNat - 48) := by omega
    _ ≤ decValAcc cs (acc * 10 + (c.toNat - 48)) := ih _
    _ = decValAcc (c :: cs) acc := rfl

theorem fromDecStrCore_ok (cs : List Char) : ∀ acc : Nat,
    (∀ c ∈ cs, 48 ≤ c.toNat ∧ c.toNat ≤ 57) → decValAcc cs acc < 2 ^ 256 →
    fromDecStrCore cs acc = .ok (decValAcc cs acc) := by
  induction cs with
  | nil => intro acc _ _; rfl
  | cons c cs ih =>
    intro acc hdig hlt
    have hc := hdig c (List.mem_cons_self c cs)
    have hstep : decValAcc (c :: cs) acc = decValAcc cs (acc * 10 + (c.toNat - 48)) := rfl
    have hmid : acc * 10 + (c.toNat - 48) < 2 ^ 256 := by
      have := decValAcc_le cs (acc * 10 + (c.toNat - 48))
      rw [hstep] at hlt
      omega
    simp only [fromDecStrCore, if_pos hc, if_pos hmid]
    rw [hstep] at hlt ⊢
    exact ih _ (fun d hd => hdig d (List.mem_cons_of_mem c hd)) hlt

theorem decValAcc_replicate_zero (k : Nat) :
    decValAcc (List.replicate k (Char.ofNat 48)) 0 = 0 := by
  induction k with
  | zero => rfl
  | succ k ih => exact ih

theorem digitChar_toNat (d : Nat) (h : d < 10) : (digitChar d).toNat = 48 + d := by
  interval_cases d <;> rfl

theorem natDecCharsAux_digits (fuel : Nat) : ∀ n, n < fuel →
    ∀ c ∈ natDecCharsAux fuel n, 48 ≤ c.toNat ∧ c.toNat ≤ 57 := by
  induction fuel with
  | zero => intro n hn; omega
  | succ fuel ih =>
    intro n hn c hc
    rw [natDecCharsAux] at hc
    by_cases h10 : n < 10
    · rw [if_pos h10] at hc
      simp only [List.mem_singleton] at hc
      subst hc
      rw [digitChar_toNat n h10]
      omega
    · rw [if_neg h10] at hc
      rcases List.mem_append.mp hc with h1 | h2
      · exact ih (n / 10) (by omega) c h1
      · simp only [List.mem_singleton] at h2
        subst h2
        rw [digitChar_toNat (n % 10) (Nat.mod_lt n (by omega))]
        omega

theorem natDecCharsAux_val (fuel : Nat) : ∀ n, n < fuel →
    decValAcc (natDecCharsAux fuel n) 0 = n := by
  induction fuel with
  | zero => intro n hn; omega
  | succ fuel ih =>
    intro n hn
    rw [natDecCharsAux]
    by_cases h10 : n < 10
    · rw [if_pos h10]
      show decValAcc [] (0 * 10 + ((digitChar n).toNat - 48)) = n
      rw [digitChar_toNat n h10]
      show 0 * 10 + (48 + n - 48) = n
      omega
    · rw [if_neg h10]
      rw [decValAcc_append]
      rw [ih (n / 10) (by omega)]
      show n / 10 * 10 + ((digitChar (n % 10)).toNat - 48) = n
      rw [digitChar_toNat (n % 10) (Nat.mod_lt n (by omega))]
      omega

theorem natDecCharsAux_ne_nil (fuel : Nat) : ∀ n, n < fuel →
    natDecCharsAux fuel n ≠ [] := by
  induction fuel with
  | zero => intro n hn; omega
  | succ fuel ih =>
    intro n hn
    rw [natDecCharsAux]
    by_cases h10 : n < 10
    · rw [if_pos h10]; simp
    · rw [if_neg h10]
      intro hcontra
      rcases List.append_eq_nil.mp hcontra with ⟨_, h2⟩
      simp at h2

theorem natDecCharsAux_len_le (fuel : Nat) : ∀ n k, n < fuel → n < 10 ^ k →
    0 < k → (natDecCharsAux fuel n).length ≤ k := by
  induction fuel with
  | zero => intro n k hn; omega
  | succ fuel ih =>
    intro n k hn hpow hk
    rw [natDecCharsAux]
    by_cases h10 : n < 10
    · rw [if_pos h10]
      simpa using hk
    · rw [if_neg h10]
      have hk2 : 2 ≤ k := by
        by_contra hcon
        have : k = 1 := by omega
        subst this
        simp at hpow
        omega
      have hdiv : n / 10 < 10 ^ (k - 1) := by
        rw [Nat.div_lt_iff_lt_mul (by omega : 0 < 10)]
        calc n < 10 ^ k := hpow
        _ = 10 ^ (k - 1) * 10 := by
          rw [← Nat.pow_succ]
          congr 1
          omega
      have := ih (n / 10) (k - 1) (by omega) hdiv (by omega)
      simp only [List.length_append, List.length_singleton]
      omega

theorem natDecChars_digits (n : Nat) :
    ∀ c ∈ natDecChars n, 48 ≤ c.toNat ∧ c.toNat ≤ 57 :=
  natDecCharsAux_digits (n + 1) n (Nat.lt_succ_self n)

theorem natDecChars_val (n : Nat) : decValAcc (natDecChars n) 0 = n :=
  natDecCharsAux_val (n + 1) n (Nat.lt_succ_self n)

theorem natDecChars_ne_nil (n : Nat) : natDecChars n ≠ [] :=
  natDecCharsAux_ne_nil (n + 1) n (Nat.lt_succ_self n)

theorem natDecChars_len_le (n k : Nat) (hpow : n < 10 ^ k) (hk : 0 < k) :
    (natDecChars n).length ≤ k :=
  natDecCharsAux_len_le (n + 1) n k (Nat.lt_succ_self n) hpow hk

theorem takeWhile_append_all (p : Char → Bool) (xs ys : List Char)
    (h : ∀ c ∈ xs, p c = true) :
    (xs ++ ys).takeWhile p = xs ++ ys.takeWhile p := by
  induction xs with
  | nil => rfl
  | cons c cs ih =>
    have hc := h c (List.mem_cons_self c cs)
    simp only [List.cons_append, List.takeWhile_cons, hc, if_true]
    rw [ih (fun d hd => h d (List.mem_cons_of_mem c hd))]

theorem dropWhile_append_all (p : Char → Bool) (xs ys : List Char)
    (h : ∀ c ∈ xs, p c = true) :
    (xs ++ ys).dropWhile p = ys.dropWhile p := by
  induction xs with
  | nil => rfl
  | cons c cs ih =>
    have hc := h c (List.mem_cons_self c cs)
    simp only [List.cons_append, List.dropWhile_cons, hc, if_true]
    exact ih (fun d hd => h d (List.mem_cons_of_mem c hd))

theorem filter_all_eq (p : Char → Bool) (xs : List Char)
    (h : ∀ c ∈ xs, p c = true) : xs.filter p = xs := by
  induction xs with
  | nil => rfl
  | cons c cs ih =>
    have hc := h c (List.mem_cons_self c cs)
    simp only [List.filter_cons, hc, if_true]
    rw [ih (fun d hd => h d (List.mem_cons_of_mem c hd))]

theorem digit_ne_special (c : Char) (h : 48 ≤ c.toNat ∧ c.toNat ≤ 57) :
    c ≠ '_' ∧ c ≠ '.' ∧ c ≠ '-' := by
  refine ⟨?_, ?_, ?_⟩ <;> intro heq <;> subst heq <;> exact absurd h (by decide)

/-- C5: for every 256-bit unsigned balance `b`, formatting `b` to a decimal
string at 18 decimal places (`format_units` with unit "ether") and
re-parsing it (`parse_units` with unit "ether") recovers `b` exactly, with
no loss of precision. -/
theorem C5_amount_roundtrip (b : Nat) (hb : b < 2 ^ 256) :
    parseUnitsEther (formatUnitsEther b) = .ok (.u256 b) := by
  have hrlt : b % 10 ^ 18 < 10 ^ 18 := Nat.mod_lt b (by norm_num)
  have hlen : (natDecChars (b % 10 ^ 18)).length ≤ 18 :=
    natDecChars_len_le _ 18 hrlt (by norm_num)
  have hpadlen : (padLeftZeros (natDecChars (b % 10 ^ 18)) 18).length = 18 := by
    simp only [padLeftZeros, List.length_append, List.length_replicate]
    omega
  have hdq_dig := natDecChars_digits (b / 10 ^ 18)
  have hpad_dig : ∀ c ∈ padLeftZeros (natDecChars (b % 10 ^ 18)) 18,
      48 ≤ c.toNat ∧ c.toNat ≤ 57 := by
    intro c hc
    rcases List.mem_append.mp hc with h1 | h2
    · have hcz := List.eq_of_mem_replicate h1
      subst hcz
      decide
    · exact natDecChars_digits _ c h2
  have h_nus : ∀ c ∈ (natDecChars (b / 10 ^ 18) ++ ['.'] ++
      padLeftZeros (natDecChars (b % 10 ^ 18)) 18), c ≠ '_' := by
    intro c hc
    rcases List.mem_append.mp hc with h1 | h2
    · rcases List.mem_append.mp h1 with h3 | h4
      · exact (digit_ne_special c (hdq_dig c h3)).1
      · simp only [List.mem_singleton] at h4
        subst h4
        decide
    · exact (digit_ne_special c (hpad_dig c h2)).1
  have hfilter : (formatUnitsEther b).data.filter (fun c => c ≠ '_') =
      natDecChars (b / 10 ^ 18) ++ ['.'] ++
        padLeftZeros (natDecChars (b % 10 ^ 18)) 18 := by
    have hd : (formatUnitsEther b).data = natDecChars (b / 10 ^ 18) ++ ['.'] ++
        padLeftZeros (natDecChars (b % 10 ^ 18)) 18 := rfl
    rw [hd]
    exact filter_all_eq _ _ (fun c hc => decide_eq_true (h_nus c hc))
  have htake : (natDecChars (b / 10 ^ 18) ++ ['.'] ++
      padLeftZeros (natDecChars (b % 10 ^ 18)) 18).takeWhile (fun c => c ≠ '.') =
      natDecChars (b / 10 ^ 18) := by
    rw [List.append_assoc]
    rw [takeWhile_append_all _ _ _
      (fun c hc => decide_eq_true (digit_ne_special c (hdq_dig c hc)).2.1)]
    have h0 : (['.'] ++ padLeftZeros (natDecChars (b % 10 ^ 18)) 18).takeWhile
        (fun c => (c ≠ '.' : Bool)) = [] := by
      simp [List.takeWhile_cons]
    rw [h0, List.append_nil]
  have hdrop : (natDecChars (b / 10 ^ 18) ++ ['.'] ++
      padLeftZeros (natDecChars (b % 10 ^ 18)) 18).dropWhile (fun c => c ≠ '.') =
      '.' :: padLeftZeros (natDecChars (b % 10 ^ 18)) 18 := by
    rw [List.append_assoc]
    rw [dropWhile_append_all _ _ _
      (fun c hc => decide_eq_true (digit_ne_special c (hdq_dig c hc)).2.1)]
    simp [List.dropWhile_cons]
  have hhead : (natDecChars (b / 10 ^ 18) ++ ['.'] ++
      padLeftZeros (natDecChars (b % 10 ^ 18)) 18).head? ≠ some '-' := by
    obtain ⟨c0, cs0, hdq⟩ := List.exists_cons_of_ne_nil (natDecChars_ne_nil (b / 10 ^ 18))
    rw [hdq]
    simp only [List.cons_append, List.head?_cons]
    intro hcontra
    have hc0 : c0 = '-' := Option.some.inj hcontra
    have hd := hdq_dig c0 (by rw [hdq]; exact List.mem_cons_self _ _)
    exact (digit_ne_special c0 hd).2.2 hc0
  have hbody_dig : ∀ c ∈ (natDecChars (b / 10 ^ 18) ++
      padLeftZeros (natDecChars (b % 10 ^ 18)) 18), 48 ≤ c.toNat ∧ c.toNat ≤ 57 := by
    intro c hc
    rcases List.mem_append.mp hc with h1 | h2
    · exact hdq_dig c h1
    · exact hpad_dig c h2
  have hval : decValAcc (natDecChars (b / 10 ^ 18) ++
      padLeftZeros (natDecChars (b % 10 ^ 18)) 18) 0 = b := by
    rw [decValAcc_append]
    rw [natDecChars_val]
    rw [decValAcc_eq]
    rw [hpadlen]
    have hpad0 : decValAcc (padLeftZeros (natDecChars (b % 10 ^ 18)) 18) 0 =
        b % 10 ^ 18 := by
      show decValAcc (List.replicate _ (Char.ofNat 48) ++ natDecChars (b % 10 ^ 18)) 0 = _
      rw [decValAcc_append, decValAcc_replicate_zero, natDecChars_val]
    rw [hpad0]
    have hdm := Nat.div_add_mod b (10 ^ 18)
    omega
  have hfds : fromDecStr (natDecChars (b / 10 ^ 18) ++
      padLeftZeros (natDecChars (b % 10 ^ 18)) 18) = .ok b := by
    unfold fromDecStr
    rw [fromDecStrCore_ok _ 0 hbody_dig (by rw [hval]; exact hb)]
    rw [hval]
  simp only [parseUnitsEther]
  rw [hfilter, htake, hdrop]
  simp only [List.tail_cons, hpadlen]
  rw [if_neg (lt_irrefl 18)]
  rw [decide_eq_false hhead]
  simp only [Bool.false_eq_true, if_false]
  rw [hfds]
  show (if b * 10 ^ (18 - 18) < 2 ^ 256 then Except.ok (ParseVal.u256 (b * 10 ^ (18 - 18)))
    else Except.error "overflow") = Except.ok (ParseVal.u256 b)
  rw [if_pos (by simpa using hb)]
  norm_num

/-- Witness for C5 at the boundary value 1. -/
theorem C5_witness :
    (1 : Nat) < 2 ^ 256 ∧
      parseUnitsEther (formatUnitsEther 1) = .ok (.u256 1) :=
  ⟨by norm_num, C5_amount_roundtrip 1 (by norm_num)⟩

/-- C2: `LstProtocol::try_from` succeeds exactly on the three tags
"aprMON", "gMON", "shMON" (any other string yields the "Invalid LST
protocol" error), and the resolved protocols carry exactly the fixed
contract and token addresses of src/services/constants.rs.  The lookup is
a pure total function by construction of the embedding, mirroring the
side-effect-free Rust match. -/
theorem C2_protocol_lookup :
    (∀ s : String, s ≠ "aprMON" → s ≠ "gMON" → s ≠ "shMON" →
      LstProtocol.tryFrom s = .error "Invalid LST protocol") ∧
    LstProtocol.tryFrom "aprMON" = .ok .AprMON ∧
    LstProtocol.tryFrom "gMON" = .ok .GMON ∧
    LstProtocol.tryFrom "shMON" = .ok .SHMON ∧
    LstProtocol.AprMON.address = 0xb2f82D0f38dc453D596Ad40A37799446Cc89274A ∧
    LstProtocol.AprMON.token_address = 0xb2f82D0f38dc453D596Ad40A37799446Cc89274A ∧
    LstProtocol.GMON.address = 0x2c9C959516e9AAEdB2C748224a41249202ca8BE7 ∧
    LstProtocol.GMON.token_address = 0xaEef2f6B429Cb59C9B2D7bB2141ADa993E8571c3 ∧
    LstProtocol.SHMON.address = 0x3a98250F98Dd388C211206983453837C8365BDc1 ∧
    LstProtocol.SHMON.token_address = 0x3a98250F98Dd388C211206983453837C8365BDc1 := by
  refine ⟨?_, rfl, rfl, rfl, rfl, rfl, rfl, rfl, rfl, rfl⟩
  intro s h1 h2 h3
  simp [LstProtocol.tryFrom, h1, h2, h3]

/-- Witness for C2 on a rejected tag. -/
theorem C2_witness :
    LstProtocol.tryFrom "xMON" = .error "Invalid LST protocol" :=
  C2_protocol_lookup.1 "xMON" (by decide) (by decide) (by decide)

/-- C10: the `Display` rendering of each protocol value parses back to the
same value via `try_from`; the two are mutually inverse on the three
protocol values. -/
theorem C10_display_tryFrom_inverse :
    ∀ p : LstProtocol, LstProtocol.tryFrom p.display = .ok p := by
  intro p
  cases p <;> rfl

/-- C7 (code evaluated at the failing input): the claim says
`read_resource` never reads past the end of the split vector, but the code
reads `parts[2]` under only a `parts.len() >= 2` guard; the URI "evm:/x"
splits into ["evm:", "x"], passes the guard, and the `parts[2]` access
panics (modelled as `none`). -/
theorem C7_index_panic :
    Lst.read_resource tvlStub balStub "evm:/x" = (none, []) := rfl

/-- C8: every stake or unstake invocation performs at most one on-chain
transaction submission, on every path (parse failure, send failure,
confirmation failure, missing receipt, success); there is no retry or
resubmission. -/
theorem C8_at_most_one_send (parseKey : String → Except String Nat)
    (chain : ChainOutcome) (req : StakeRequest) :
    countSends (Lst.stake parseKey chain req).2 ≤ 1 ∧
    countSends (Lst.unstake parseKey chain req).2 ≤ 1 := by
  constructor <;>
  · cases hk : parseKey req.private_key with
    | error e =>
      simp [Lst.stake, Lst.unstake, hk, countSends]
    | ok a =>
      cases ha : parseUnitsEther req.amount with
      | error e =>
        simp [Lst.stake, Lst.unstake, hk, ha, countSends]
      | ok pv =>
        cases chain with
        | sendError m =>
          simp [Lst.stake, Lst.unstake, hk, ha, LstProtocol.stake,
            LstProtocol.unstake, countSends, Event.isSend]
        | confirmError m =>
          simp [Lst.stake, Lst.unstake, hk, ha, LstProtocol.stake,
            LstProtocol.unstake, countSends, Event.isSend, Event.isConfirm]
        | confirmed r =>
          cases r <;>
            simp [Lst.stake, Lst.unstake, hk, ha, LstProtocol.stake,
              LstProtocol.unstake, countSends, Event.isSend, Event.isConfirm]

/-- C3: when the private key and the amount parse, the protocol-specific
entry point is submitted exactly once (the trace holds one `send` of
`stakeEntry`/`unstakeEntry`); the call awaits exactly one confirmation on
every path that reaches confirmation; on success the tool returns a text
whose suffix is the 0x-prefixed transaction hash; a send or confirmation
error yields an MCP internal error; a confirmed outcome with no receipt
yields the internal error "Staking failed: no receipt returned", not
success. -/
theorem C3_stake_unstake_dispatch (parseKey : String → Except String Nat)
    (req : StakeRequest) (a : Nat) (pv : ParseVal)
    (hk : parseKey req.private_key = .ok a)
    (ha : parseUnitsEther req.amount = .ok pv) :
    (∀ rc : TransactionReceipt,
      Lst.stake parseKey (.confirmed (some rc)) req =
        (.ok ("Staked " ++ req.amount ++ " " ++ req.protocol.display ++
          " tokens successfully. Transaction hash: " ++
          encodePrefixed rc.transaction_hash),
         [.send req.protocol (stakeEntry req.protocol) pv.toU256, .confirmWait 1]) ∧
      (encodePrefixed rc.transaction_hash).data <:+
        ("Staked " ++ req.amount ++ " " ++ req.protocol.display ++
          " tokens successfully. Transaction hash: " ++
          encodePrefixed rc.transaction_hash).data) ∧
    (∀ m, Lst.stake parseKey (.sendError m) req =
      (.error ⟨.internalError, "Staking failed: " ++ stakeSendCtx req.protocol⟩,
       [.send req.protocol (stakeEntry req.protocol) pv.toU256])) ∧
    (∀ m, Lst.stake parseKey (.confirmError m) req =
      (.error ⟨.internalError, "Staking failed: " ++ stakeConfirmCtx req.protocol⟩,
       [.send req.protocol (stakeEntry req.protocol) pv.toU256, .confirmWait 1])) ∧
    (Lst.stake parseKey (.confirmed none) req =
      (.error ⟨.internalError, "Staking failed: no receipt returned"⟩,
       [.send req.protocol (stakeEntry req.protocol) pv.toU256, .confirmWait 1])) ∧
    (∀ rc : TransactionReceipt,
      Lst.unstake parseKey (.confirmed (some rc)) req =
        (.ok ("Unstaked " ++ req.amount ++ " " ++ req.protocol.display ++
          " tokens successfully. Transaction hash: " ++
          encodePrefixed rc.transaction_hash),
         [.send req.protocol (unstakeEntry req.protocol) pv.toU256, .confirmWait 1]) ∧
      (encodePrefixed rc.transaction_hash).data <:+
        ("Unstaked " ++ req.amount ++ " " ++ req.protocol.display ++
          " tokens successfully. Transaction hash: " ++
          encodePrefixed rc.transaction_hash).data) ∧
    (∀ m, Lst.unstake parseKey (.sendError m) req =
      (.error ⟨.internalError, "Staking failed: " ++ unstakeSendCtx req.protocol⟩,
       [.send req.protocol (unstakeEntry req.protocol) pv.toU256])) ∧
    (∀ m, Lst.unstake parseKey (.confirmError m) req =
      (.error ⟨.internalError, "Staking failed: " ++ unstakeConfirmCtx req.protocol⟩,
       [.send req.protocol (unstakeEntry req.protocol) pv.toU256, .confirmWait 1])) ∧
    (Lst.unstake parseKey (.confirmed none) req =
      (.error ⟨.internalError, "Staking failed: no receipt returned"⟩,
       [.send req.protocol (unstakeEntry req.protocol) pv.toU256, .confirmWait 1])) := by
  refine ⟨?_, ?_, ?_, ?_, ?_, ?_, ?_, ?_⟩
  · intro rc
    constructor
    · simp [Lst.stake, hk, ha, LstProtocol.stake]
    · rw [String.data_append]
      exact List.suffix_append _ _
  · intro m
    simp [Lst.stake, hk, ha, LstProtocol.stake]
  · intro m
    simp [Lst.stake, hk, ha, LstProtocol.stake]
  · simp [Lst.stake, hk, ha, LstProtocol.stake]
  · intro rc
    constructor
    · simp [Lst.unstake, hk, ha, LstProtocol.unstake]
    · rw [String.data_append]
      exact List.suffix_append _ _
  · intro m
    simp [Lst.unstake, hk, ha, LstProtocol.unstake]
  · intro m
    simp [Lst.unstake, hk, ha, LstProtocol.unstake]
  · simp [Lst.unstake, hk, ha, LstProtocol.unstake]

/-- Witness for C3: a concrete aprMON stake confirmed without a receipt
returns the "no receipt returned" internal error. -/
theorem C3_witness :
    Lst.stake keyStub (.confirmed none) ⟨.AprMON, "k", "1"⟩ =
      (.error ⟨.internalError, "Staking failed: no receipt returned"⟩,
       [.send .AprMON (stakeEntry .AprMON) (ParseVal.u256 1000000000000000000).toU256,
        .confirmWait 1]) :=
  (C3_stake_unstake_dispatch keyStub ⟨.AprMON, "k", "1"⟩ 1
    (.u256 1000000000000000000) rfl rfl).2.2.2.1

/-- C4: a private key that fails to parse, or (with a parsing key) an
amount that fails to parse, produces an MCP invalid-params error with an
empty trace: no transaction is built or submitted and no RPC request is
made, for both the stake and the unstake tool. -/
theorem C4_parse_failures_no_network (parseKey : String → Except String Nat)
    (chain : ChainOutcome) (req : StakeRequest) :
    (∀ e, parseKey req.private_key = .error e →
      Lst.stake parseKey chain req =
        (.error ⟨.invalidParams, "Failed to parse private key: " ++ e⟩, []) ∧
      Lst.unstake parseKey chain req =
        (.error ⟨.invalidParams, "Failed to parse private key: " ++ e⟩, [])) ∧
    (∀ a e, parseKey req.private_key = .ok a →
      parseUnitsEther req.amount = .error e →
      Lst.stake parseKey chain req =
        (.error ⟨.invalidParams,
          "Failed to parse amount " ++ quoteS req.amount ++ ": " ++ e⟩, []) ∧
      Lst.unstake parseKey chain req =
        (.error ⟨.invalidParams,
          "Failed to parse amount " ++ quoteS req.amount ++ ": " ++ e⟩, [])) := by
  constructor
  · intro e he
    constructor <;> simp [Lst.stake, Lst.unstake, he]
  · intro a e hk ha
    constructor <;> simp [Lst.stake, Lst.unstake, hk, ha]

/-- Witness for C4: the all-rejecting key oracle yields invalid-params with
an empty trace. -/
theorem C4_witness :
    Lst.stake keyFailStub (.confirmed none) ⟨.GMON, "bad", "1"⟩ =
      (.error ⟨.invalidParams,
        "Failed to parse private key: invalid private key"⟩, []) :=
  ((C4_parse_failures_no_network keyFailStub (.confirmed none)
    ⟨.GMON, "bad", "1"⟩).1 "invalid private key" rfl).1

theorem tryFrom_ok_cases (tag : String) (p : LstProtocol)
    (h : LstProtocol.tryFrom tag = .ok p) :
    (tag = "aprMON" ∧ p = .AprMON) ∨ (tag = "gMON" ∧ p = .GMON) ∨
    (tag = "shMON" ∧ p = .SHMON) := by
  unfold LstProtocol.tryFrom at h
  by_cases h1 : tag = "aprMON"
  · rw [if_pos h1] at h
    exact Or.inl ⟨h1, (Except.ok.inj h).symm⟩
  · rw [if_neg h1] at h
    by_cases h2 : tag = "gMON"
    · rw [if_pos h2] at h
      exact Or.inr (Or.inl ⟨h2, (Except.ok.inj h).symm⟩)
    · rw [if_neg h2] at h
      by_cases h3 : tag = "shMON"
      · rw [if_pos h3] at h
        exact Or.inr (Or.inr ⟨h3, (Except.ok.inj h).symm⟩)
      · rw [if_neg h3] at h
        exact absurd h (by simp)

theorem routeParts_tvl_ok (tvlO : LstProtocol → Except String Nat)
    (balO : LstProtocol → Nat → Except String Nat) (tag : String)
    (p : LstProtocol) (v : Nat) (h : LstProtocol.tryFrom tag = .ok p)
    (hv : tvlO p = .ok v) :
    routeParts tvlO balO ["evm:", "", "monadTestnet", "lsts", tag, "tvl"] =
      (some (.ok ("TVL: " ++ formatUnitsEther v ++ " ether")),
       [Event.readCall p (tvlMethod p)]) := by
  rcases tryFrom_ok_cases tag p h with ⟨rfl, rfl⟩ | ⟨rfl, rfl⟩ | ⟨rfl, rfl⟩ <;>
    simp [routeParts, Lst.protocol_tvl, LstProtocol.tvl, LstProtocol.tryFrom,
      hv, List.getD]

theorem routeParts_listing (tvlO : LstProtocol → Except String Nat)
    (balO : LstProtocol → Nat → Except String Nat) :
    routeParts tvlO balO ["evm:", "", "monadTestnet", "lsts"] =
      (some (.ok "Available LST protocols: aprMON, gMON, shMON"), []) := rfl

theorem routeParts_detail_ok (tvlO : LstProtocol → Except String Nat)
    (balO : LstProtocol → Nat → Except String Nat) (tag : String)
    (p : LstProtocol) (h : LstProtocol.tryFrom tag = .ok p) :
    routeParts tvlO balO ["evm:", "", "monadTestnet", "lsts", tag] =
      (some (.ok p.description), []) := by
  rcases tryFrom_ok_cases tag p h with ⟨rfl, rfl⟩ | ⟨rfl, rfl⟩ | ⟨rfl, rfl⟩ <;> rfl

theorem routeParts_detail_err (tvlO : LstProtocol → Except String Nat)
    (balO : LstProtocol → Nat → Except String Nat) (tag : String) (e : String)
    (h : LstProtocol.tryFrom tag = .error e) :
    routeParts tvlO balO ["evm:", "", "monadTestnet", "lsts", tag] =
      (some (.error ⟨.invalidParams,
        "Failed to parse protocol " ++ quoteS tag ++ ": " ++ e⟩), []) := by
  simp [routeParts, List.getD, h]

theorem routeParts_tvl_err (tvlO : LstProtocol → Except String Nat)
    (balO : LstProtocol → Nat → Except String Nat) (tag : String)
    (p : LstProtocol) (m : String) (h : LstProtocol.tryFrom tag = .ok p)
    (hv : tvlO p = .error m) :
    routeParts tvlO balO ["evm:", "", "monadTestnet", "lsts", tag, "tvl"] =
      (some (.error ⟨.internalError, "Failed to get TVL: Failed to get TVL"⟩),
       [Event.readCall p (tvlMethod p)]) := by
  rcases tryFrom_ok_cases tag p h with ⟨rfl, rfl⟩ | ⟨rfl, rfl⟩ | ⟨rfl, rfl⟩ <;>
    simp [routeParts, Lst.protocol_tvl, LstProtocol.tvl, LstProtocol.tryFrom,
      hv, List.getD]

theorem routeParts_tvl_badtag (tvlO : LstProtocol → Except String Nat)
    (balO : LstProtocol → Nat → Except String Nat) (tag : String) (e : String)
    (h : LstProtocol.tryFrom tag = .error e) :
    routeParts tvlO balO ["evm:", "", "monadTestnet", "lsts", tag, "tvl"] =
      (some (.error ⟨.invalidParams,
        "Failed to parse protocol " ++ quoteS tag ++ ": " ++ e⟩), []) := by
  simp [routeParts, List.getD, h]

theorem routeParts_balance_ok (tvlO : LstProtocol → Except String Nat)
    (balO : LstProtocol → Nat → Except String Nat) (addrStr : String) (a : Nat)
    (tag : String) (p : LstProtocol) (v : Nat)
    (haddr : parseAddress addrStr = some a)
    (h : LstProtocol.tryFrom tag = .ok p) (hb : balO p a = .ok v) :
    routeParts tvlO balO
      ["evm:", "", "monadTestnet", "address", addrStr, "lsts", tag, "balance"] =
      (some (.ok ("Balance: " ++ formatUnitsEther v ++ " " ++ tag)),
       [Event.readCall p "balance_of"]) := by
  rcases tryFrom_ok_cases tag p h with ⟨rfl, rfl⟩ | ⟨rfl, rfl⟩ | ⟨rfl, rfl⟩ <;>
    simp [routeParts, Lst.read_balance, LstProtocol.read_balance,
      LstProtocol.tryFrom, haddr, hb, List.getD]

theorem routeParts_balance_badaddr (tvlO : LstProtocol → Except String Nat)
    (balO : LstProtocol → Nat → Except String Nat) (addrStr tag : String)
    (haddr : parseAddress addrStr = none) :
    routeParts tvlO balO
      ["evm:", "", "monadTestnet", "address", addrStr, "lsts", tag, "balance"] =
      (some (.error ⟨.invalidParams, "Invalid address"⟩), []) := by
  simp [routeParts, List.getD, haddr]

theorem routeParts_balance_badtag (tvlO : LstProtocol → Except String Nat)
    (balO : LstProtocol → Nat → Except String Nat) (addrStr : String) (a : Nat)
    (tag e : String) (haddr : parseAddress addrStr = some a)
    (h : LstProtocol.tryFrom tag = .error e) :
    routeParts tvlO balO
      ["evm:", "", "monadTestnet", "address", addrStr, "lsts", tag, "balance"] =
      (some (.error ⟨.invalidParams, "Failed to parse protocol: " ++ e⟩), []) := by
  simp [routeParts, List.getD, haddr, h]

theorem routeParts_balance_err (tvlO : LstProtocol → Except String Nat)
    (balO : LstProtocol → Nat → Except String Nat) (addrStr : String) (a : Nat)
    (tag : String) (p : LstProtocol) (m : String)
    (haddr : parseAddress addrStr = some a)
    (h : LstProtocol.tryFrom tag = .ok p) (hb : balO p a = .error m) :
    routeParts tvlO balO
      ["evm:", "", "monadTestnet", "address", addrStr, "lsts", tag, "balance"] =
      (some (.error ⟨.internalError,
        "Failed to get balance: Failed to read balance"⟩),
       [Event.readCall p "balance_of"]) := by
  rcases tryFrom_ok_cases tag p h with ⟨rfl, rfl⟩ | ⟨rfl, rfl⟩ | ⟨rfl, rfl⟩ <;>
    simp [routeParts, Lst.read_balance, LstProtocol.read_balance,
      LstProtocol.tryFrom, haddr, hb, List.getD]

theorem routeParts_badnet (tvlO : LstProtocol → Except String Nat)
    (balO : LstProtocol → Nat → Except String Nat) (p1 net : String)
    (rest : List String) (hnet : net ≠ "monadTestnet") :
    routeParts tvlO balO ("evm:" :: p1 :: net :: rest) =
      (some (.error ⟨.resourceNotFound, "Unsupported network"⟩), []) := by
  simp [routeParts, List.getD, hnet]

theorem routeParts_noguard (tvlO : LstProtocol → Except String Nat)
    (balO : LstProtocol → Nat → Except String Nat) (parts : List String)
    (h : ¬(2 ≤ parts.length ∧ parts.getD 0 "" = "evm:")) :
    routeParts tvlO balO parts =
      (some (.error ⟨.resourceNotFound, "resource_not_found"⟩), []) := by
  unfold routeParts
  rw [if_neg h]

theorem routeParts_nomatch (tvlO : LstProtocol → Except String Nat)
    (balO : LstProtocol → Nat → Except String Nat) (p1 : String)
    (rest : List String)
    (h4 : ¬(rest.length = 1 ∧ (rest[0]?).getD "" = "lsts"))
    (h5 : ¬(rest.length = 2 ∧ (rest[0]?).getD "" = "lsts"))
    (h6 : ¬(rest.length = 3 ∧ (rest[0]?).getD "" = "lsts" ∧
      (rest[2]?).getD "" = "tvl"))
    (h8 : ¬(rest.length = 5 ∧ (rest[0]?).getD "" = "address" ∧
      (rest[2]?).getD "" = "lsts" ∧ (rest[4]?).getD "" = "balance")) :
    routeParts tvlO balO ("evm:" :: p1 :: "monadTestnet" :: rest) =
      (some (.error ⟨.resourceNotFound, "resource_not_found"⟩), []) := by
  simp [routeParts, List.getD, h4, h5, h6, h8]

/-- C1 counterexample: the URI evm://monadTestnet/lsts/sMON matches none of
the five documented shapes (sMON is not a protocol), yet `read_resource`
returns an MCP invalid-params error, not the "resource not found" error the
claim requires for every unmatched URI. -/
theorem C1_counterexample :
    (Lst.read_resource tvlStub balStub "evm://monadTestnet/lsts/sMON").1 =
      some (.error ⟨.invalidParams,
        "Failed to parse protocol " ++ quoteS "sMON" ++ ": Invalid LST protocol"⟩) ∧
    McpErrorKind.invalidParams ≠ McpErrorKind.resourceNotFound :=
  ⟨rfl, by decide⟩

/-- C1 (amended): URI routing of `read_resource`, per shape of the
slash-split.  The five documented shapes with a supported network, valid
protocol tag and valid address return the documented content (reading
evm://monadTestnet/lsts returns the listing text "Available LST protocols:
aprMON, gMON, shMON"); a structurally matching URI with an invalid protocol
tag or invalid address yields an invalid-params error (not not-found); a
URI that fails the evm: guard, names an unsupported network, or matches no
structural shape yields resource-not-found.  (2-segment "evm:" URIs panic
instead; see C7.) -/
theorem C1_amended_routing (tvlO : LstProtocol → Except String Nat)
    (balO : LstProtocol → Nat → Except String Nat) :
    (Lst.read_resource tvlO balO "evm://networks").1 =
      some (.ok "Supported networks: monadTestnet") ∧
    (Lst.read_resource tvlO balO "evm://monadTestnet/lsts").1 =
      some (.ok "Available LST protocols: aprMON, gMON, shMON") ∧
    (∀ uri tag p, uri ≠ "evm://networks" →
      splitStr '/' uri = ["evm:", "", "monadTestnet", "lsts", tag] →
      LstProtocol.tryFrom tag = .ok p →
      (Lst.read_resource tvlO balO uri).1 = some (.ok p.description)) ∧
    (∀ uri tag e, uri ≠ "evm://networks" →
      splitStr '/' uri = ["evm:", "", "monadTestnet", "lsts", tag] →
      LstProtocol.tryFrom tag = .error e →
      (Lst.read_resource tvlO balO uri).1 = some (.error ⟨.invalidParams,
        "Failed to parse protocol " ++ quoteS tag ++ ": " ++ e⟩)) ∧
    (∀ uri tag p v, uri ≠ "evm://networks" →
      splitStr '/' uri = ["evm:", "", "monadTestnet", "lsts", tag, "tvl"] →
      LstProtocol.tryFrom tag = .ok p → tvlO p = .ok v →
      (Lst.read_resource tvlO balO uri).1 =
        some (.ok ("TVL: " ++ formatUnitsEther v ++ " ether"))) ∧
    (∀ uri tag e, uri ≠ "evm://networks" →
      splitStr '/' uri = ["evm:", "", "monadTestnet", "lsts", tag, "tvl"] →
      LstProtocol.tryFrom tag = .error e →
      (Lst.read_resource tvlO balO uri).1 = some (.error ⟨.invalidParams,
        "Failed to parse protocol " ++ quoteS tag ++ ": " ++ e⟩)) ∧
    (∀ uri addrStr a tag p v, uri ≠ "evm://networks" →
      splitStr '/' uri =
        ["evm:", "", "monadTestnet", "address", addrStr, "lsts", tag, "balance"] →
      parseAddress addrStr = some a → LstProtocol.tryFrom tag = .ok p →
      balO p a = .ok v →
      (Lst.read_resource tvlO balO uri).1 =
        some (.ok ("Balance: " ++ formatUnitsEther v ++ " " ++ tag))) ∧
    (∀ uri addrStr tag, uri ≠ "evm://networks" →
      splitStr '/' uri =
        ["evm:", "", "monadTestnet", "address", addrStr, "lsts", tag, "balance"] →
      parseAddress addrStr = none →
      (Lst.read_resource tvlO balO uri).1 =
        some (.error ⟨.invalidParams, "Invalid address"⟩)) ∧
    (∀ uri, uri ≠ "evm://networks" →
      ¬(2 ≤ (splitStr '/' uri).length ∧ (splitStr '/' uri).getD 0 "" = "evm:") →
      (Lst.read_resource tvlO balO uri).1 =
        some (.error ⟨.resourceNotFound, "resource_not_found"⟩)) ∧
    (∀ uri p1 net rest, uri ≠ "evm://networks" →
      splitStr '/' uri = "evm:" :: p1 :: net :: rest → net ≠ "monadTestnet" →
      (Lst.read_resource tvlO balO uri).1 =
        some (.error ⟨.resourceNotFound, "Unsupported network"⟩)) ∧
    (∀ uri p1 rest, uri ≠ "evm://networks" →
      splitStr '/' uri = "evm:" :: p1 :: "monadTestnet" :: rest →
      ¬(rest.length = 1 ∧ (rest[0]?).getD "" = "lsts") →
      ¬(rest.length = 2 ∧ (rest[0]?).getD "" = "lsts") →
      ¬(rest.length = 3 ∧ (rest[0]?).getD "" = "lsts" ∧
        (rest[2]?).getD "" = "tvl") →
      ¬(rest.length = 5 ∧ (rest[0]?).getD "" = "address" ∧
        (rest[2]?).getD "" = "lsts" ∧ (rest[4]?).getD "" = "balance") →
      (Lst.read_resource tvlO balO uri).1 =
        some (.error ⟨.resourceNotFound, "resource_not_found"⟩)) := by
  refine ⟨rfl, rfl, ?_, ?_, ?_, ?_, ?_, ?_, ?_, ?_, ?_⟩
  · intro uri tag p hne hsplit htag
    unfold Lst.read_resource
    rw [if_neg hne, hsplit, routeParts_detail_ok tvlO balO tag p htag]
  · intro uri tag e hne hsplit htag
    unfold Lst.read_resource
    rw [if_neg hne, hsplit, routeParts_detail_err tvlO balO tag e htag]
  · intro uri tag p v hne hsplit htag htv
    unfold Lst.read_resource
    rw [if_neg hne, hsplit, routeParts_tvl_ok tvlO balO tag p v htag htv]
  · intro uri tag e hne hsplit htag
    unfold Lst.read_resource
    rw [if_neg hne, hsplit, routeParts_tvl_badtag tvlO balO tag e htag]
  · intro uri addrStr a tag p v hne hsplit haddr htag hb
    unfold Lst.read_resource
    rw [if_neg hne, hsplit,
      routeParts_balance_ok tvlO balO addrStr a tag p v haddr htag hb]
  · intro uri addrStr tag hne hsplit haddr
    unfold Lst.read_resource
    rw [if_neg hne, hsplit, routeParts_balance_badaddr tvlO balO addrStr tag haddr]
  · intro uri hne hg
    unfold Lst.read_resource
    rw [if_neg hne, routeParts_noguard tvlO balO _ hg]
  · intro uri p1 net rest hne hsplit hnet
    unfold Lst.read_resource
    rw [if_neg hne, hsplit, routeParts_badnet tvlO balO p1 net rest hnet]
  · intro uri p1 rest hne hsplit h4 h5 h6 h8
    unfold Lst.read_resource
    rw [if_neg hne, hsplit, routeParts_nomatch tvlO balO p1 rest h4 h5 h6 h8]

/-- Witness for C1: the protocol detail shape at shMON returns its
description. -/
theorem C1_witness :
    (Lst.read_resource tvlStub balStub "evm://monadTestnet/lsts/shMON").1 =
      some (.ok (LstProtocol.SHMON.description)) :=
  (C1_amended_routing tvlStub balStub).2.2.1 "evm://monadTestnet/lsts/shMON"
    "shMON" .SHMON (by decide) (by decide) rfl

theorem protocol_tvl_trace (tvlO : LstProtocol → Except String Nat)
    (p : LstProtocol) :
    (Lst.protocol_tvl tvlO p).2 = [Event.readCall p (tvlMethod p)] := by
  cases h : tvlO p <;>
    simp [Lst.protocol_tvl, LstProtocol.tvl, h]

theorem read_balance_trace (balO : LstProtocol → Nat → Except String Nat)
    (p : LstProtocol) (a : Nat) :
    (Lst.read_balance balO p a).2 = [Event.readCall p "balance_of"] := by
  cases h : balO p a <;>
    simp [Lst.read_balance, LstProtocol.read_balance, h]

theorem routeParts_no_chain_write (tvlO : LstProtocol → Except String Nat)
    (balO : LstProtocol → Nat → Except String Nat) (parts : List String) :
    countSends (routeParts tvlO balO parts).2 = 0 ∧
    countConfirms (routeParts tvlO balO parts).2 = 0 := by
  by_cases hg : 2 ≤ parts.length ∧ parts.getD 0 "" = "evm:"
  case neg =>
    rw [routeParts_noguard tvlO balO parts hg]
    exact ⟨rfl, rfl⟩
  case pos =>
    unfold routeParts
    rw [if_pos hg]
    cases h2 : parts[2]? with
    | none => exact ⟨rfl, rfl⟩
    | some network =>
      simp only []
      by_cases hnet : network ≠ "monadTestnet"
      · rw [if_pos hnet]
        exact ⟨rfl, rfl⟩
      · rw [if_neg hnet]
        by_cases h4 : parts.length = 4 ∧ parts.getD 3 "" = "lsts"
        · rw [if_pos h4]
          exact ⟨rfl, rfl⟩
        · rw [if_neg h4]
          by_cases h5 : parts.length = 5 ∧ parts.getD 3 "" = "lsts"
          · rw [if_pos h5]
            cases htf : LstProtocol.tryFrom (parts.getD 4 "") <;> exact ⟨rfl, rfl⟩
          · rw [if_neg h5]
            by_cases h6 : parts.length = 6 ∧ parts.getD 3 "" = "lsts" ∧
                parts.getD 5 "" = "tvl"
            · rw [if_pos h6]
              cases htf : LstProtocol.tryFrom (parts.getD 4 "") with
              | error e => exact ⟨rfl, rfl⟩
              | ok p =>
                cases htv : tvlO p <;>
                  simp [Lst.protocol_tvl, LstProtocol.tvl, htv, countSends,
                    countConfirms, Event.isSend, Event.isConfirm]
            · rw [if_neg h6]
              by_cases h8 : parts.length = 8 ∧ parts.getD 3 "" = "address" ∧
                  parts.getD 5 "" = "lsts" ∧ parts.getD 7 "" = "balance"
              · rw [if_pos h8]
                cases haddr : parseAddress (parts.getD 4 "") with
                | none => exact ⟨rfl, rfl⟩
                | some a =>
                  cases htf : LstProtocol.tryFrom (parts.getD 6 "") with
                  | error e => exact ⟨rfl, rfl⟩
                  | ok p =>
                    cases hb : balO p a <;>
                      simp [Lst.read_balance, LstProtocol.read_balance, hb,
                        countSends, countConfirms, Event.isSend, Event.isConfirm]
              · rw [if_neg h8]
                exact ⟨rfl, rfl⟩

/-- C9: every resource read is free of writes: no invocation of
`read_resource` ever submits a transaction or awaits a confirmation (for
any URI and any oracle outcome); the networks, listing and detail shapes
touch the chain not at all; the TVL and balance shapes perform exactly one
read-only view call per query and their text reflects the value the oracle
returns at that query — fetched fresh, nothing cached.  The handler itself
is state-free in the embedding, mirroring the `&self` methods that share
only an immutable provider handle. -/
theorem C9_readonly_frame (tvlO : LstProtocol → Except String Nat)
    (balO : LstProtocol → Nat → Except String Nat) :
    (∀ uri, countSends (Lst.read_resource tvlO balO uri).2 = 0 ∧
      countConfirms (Lst.read_resource tvlO balO uri).2 = 0) ∧
    (Lst.read_resource tvlO balO "evm://networks").2 = [] ∧
    (Lst.read_resource tvlO balO "evm://monadTestnet/lsts").2 = [] ∧
    (∀ uri tag p, uri ≠ "evm://networks" →
      splitStr '/' uri = ["evm:", "", "monadTestnet", "lsts", tag] →
      LstProtocol.tryFrom tag = .ok p →
      (Lst.read_resource tvlO balO uri).2 = []) ∧
    (∀ uri tag p v, uri ≠ "evm://networks" →
      splitStr '/' uri = ["evm:", "", "monadTestnet", "lsts", tag, "tvl"] →
      LstProtocol.tryFrom tag = .ok p → tvlO p = .ok v →
      Lst.read_resource tvlO balO uri =
        (some (.ok ("TVL: " ++ formatUnitsEther v ++ " ether")),
         [Event.readCall p (tvlMethod p)])) ∧
    (∀ uri addrStr a tag p v, uri ≠ "evm://networks" →
      splitStr '/' uri =
        ["evm:", "", "monadTestnet", "address", addrStr, "lsts", tag, "balance"] →
      parseAddress addrStr = some a → LstProtocol.tryFrom tag = .ok p →
      balO p a = .ok v →
      Lst.read_resource tvlO balO uri =
        (some (.ok ("Balance: " ++ formatUnitsEther v ++ " " ++ tag)),
         [Event.readCall p "balance_of"])) := by
  refine ⟨?_, rfl, rfl, ?_, ?_, ?_⟩
  · intro uri
    unfold Lst.read_resource
    by_cases hn : uri = "evm://networks"
    · rw [if_pos hn]
      exact ⟨rfl, rfl⟩
    · rw [if_neg hn]
      exact routeParts_no_chain_write tvlO balO (splitStr '/' uri)
  · intro uri tag p hne hsplit htag
    unfold Lst.read_resource
    rw [if_neg hne, hsplit, routeParts_detail_ok tvlO balO tag p htag]
  · intro uri tag p v hne hsplit htag htv
    unfold Lst.read_resource
    rw [if_neg hne, hsplit, routeParts_tvl_ok tvlO balO tag p v htag htv]
  · intro uri addrStr a tag p v hne hsplit haddr htag hb
    unfold Lst.read_resource
    rw [if_neg hne, hsplit,
      routeParts_balance_ok tvlO balO addrStr a tag p v haddr htag hb]

/-- Witness for C9: a concrete TVL query performs exactly one read-only
view call and returns the freshly fetched value. -/
theorem C9_witness :
    Lst.read_resource tvlStub balStub "evm://monadTestnet/lsts/gMON/tvl" =
      (some (.ok ("TVL: " ++ formatUnitsEther 0 ++ " ether")),
       [Event.readCall .GMON (tvlMethod .GMON)]) :=
  (C9_readonly_frame tvlStub balStub).2.2.2.2.1 "evm://monadTestnet/lsts/gMON/tvl"
    "gMON" .GMON 0 (by decide) (by decide) rfl rfl

/-- C6: each surfaced MCP error carries the kind of its cause — input
validation failures (bad private key, bad amount, bad protocol tag, bad
address) surface as invalid-params; on-chain/RPC failures (send error,
confirmation error, missing receipt, failed TVL or balance call) surface
as internal errors with the anyhow display of the failure attached;
URIs failing the evm: guard, naming an unsupported network, or matching no
shape surface as resource-not-found.  The final conjunct evaluates the
code at the failing input of the claim: the unmatched URI "evm:/p" is
surfaced as no error at all — the `parts[2]` indexing panics — which is
the code bug recorded for this claim. -/
theorem C6_error_taxonomy (parseKey : String → Except String Nat)
    (req : StakeRequest) (tvlO : LstProtocol → Except String Nat)
    (balO : LstProtocol → Nat → Except String Nat) :
    (∀ chain e, parseKey req.private_key = .error e →
      (Lst.stake parseKey chain req).1 = .error ⟨.invalidParams,
        "Failed to parse private key: " ++ e⟩ ∧
      (Lst.unstake parseKey chain req).1 = .error ⟨.invalidParams,
        "Failed to parse private key: " ++ e⟩) ∧
    (∀ chain a e, parseKey req.private_key = .ok a →
      parseUnitsEther req.amount = .error e →
      (Lst.stake parseKey chain req).1 = .error ⟨.invalidParams,
        "Failed to parse amount " ++ quoteS req.amount ++ ": " ++ e⟩ ∧
      (Lst.unstake parseKey chain req).1 = .error ⟨.invalidParams,
        "Failed to parse amount " ++ quoteS req.amount ++ ": " ++ e⟩) ∧
    (∀ a pv m, parseKey req.private_key = .ok a →
      parseUnitsEther req.amount = .ok pv →
      (Lst.stake parseKey (.sendError m) req).1 = .error ⟨.internalError,
        "Staking failed: " ++ stakeSendCtx req.protocol⟩ ∧
      (Lst.unstake parseKey (.sendError m) req).1 = .error ⟨.internalError,
        "Staking failed: " ++ unstakeSendCtx req.protocol⟩) ∧
    (∀ a pv m, parseKey req.private_key = .ok a →
      parseUnitsEther req.amount = .ok pv →
      (Lst.stake parseKey (.confirmError m) req).1 = .error ⟨.internalError,
        "Staking failed: " ++ stakeConfirmCtx req.protocol⟩ ∧
      (Lst.unstake parseKey (.confirmError m) req).1 = .error ⟨.internalError,
        "Staking failed: " ++ unstakeConfirmCtx req.protocol⟩) ∧
    (∀ a pv, parseKey req.private_key = .ok a →
      parseUnitsEther req.amount = .ok pv →
      (Lst.stake parseKey (.confirmed none) req).1 = .error ⟨.internalError,
        "Staking failed: no receipt returned"⟩ ∧
      (Lst.unstake parseKey (.confirmed none) req).1 = .error ⟨.internalError,
        "Staking failed: no receipt returned"⟩) ∧
    (∀ uri tag e, uri ≠ "evm://networks" →
      splitStr '/' uri = ["evm:", "", "monadTestnet", "lsts", tag] →
      LstProtocol.tryFrom tag = .error e →
      (Lst.read_resource tvlO balO uri).1 = some (.error ⟨.invalidParams,
        "Failed to parse protocol " ++ quoteS tag ++ ": " ++ e⟩)) ∧
    (∀ uri tag p m, uri ≠ "evm://networks" →
      splitStr '/' uri = ["evm:", "", "monadTestnet", "lsts", tag, "tvl"] →
      LstProtocol.tryFrom tag = .ok p → tvlO p = .error m →
      (Lst.read_resource tvlO balO uri).1 = some (.error ⟨.internalError,
        "Failed to get TVL: Failed to get TVL"⟩)) ∧
    (∀ uri addrStr tag, uri ≠ "evm://networks" →
      splitStr '/' uri =
        ["evm:", "", "monadTestnet", "address", addrStr, "lsts", tag, "balance"] →
      parseAddress addrStr = none →
      (Lst.read_resource tvlO balO uri).1 =
        some (.error ⟨.invalidParams, "Invalid address"⟩)) ∧
    (∀ uri addrStr a tag p m, uri ≠ "evm://networks" →
      splitStr '/' uri =
        ["evm:", "", "monadTestnet", "address", addrStr, "lsts", tag, "balance"] →
      parseAddress addrStr = some a → LstProtocol.tryFrom tag = .ok p →
      balO p a = .error m →
      (Lst.read_resource tvlO balO uri).1 = some (.error ⟨.internalError,
        "Failed to get balance: Failed to read balance"⟩)) ∧
    (∀ uri, uri ≠ "evm://networks" →
      ¬(2 ≤ (splitStr '/' uri).length ∧ (splitStr '/' uri).getD 0 "" = "evm:") →
      (Lst.read_resource tvlO balO uri).1 =
        some (.error ⟨.resourceNotFound, "resource_not_found"⟩)) ∧
    (∀ uri p1 net rest, uri ≠ "evm://networks" →
      splitStr '/' uri = "evm:" :: p1 :: net :: rest → net ≠ "monadTestnet" →
      (Lst.read_resource tvlO balO uri).1 =
        some (.error ⟨.resourceNotFound, "Unsupported network"⟩)) ∧
    (Lst.read_resource tvlStub balStub "evm:/p").1 = none := by
  refine ⟨?_, ?_, ?_, ?_, ?_, ?_, ?_, ?_, ?_, ?_, ?_, rfl⟩
  · intro chain e he
    constructor <;> simp [Lst.stake, Lst.unstake, he]
  · intro chain a e hk ha
    constructor <;> simp [Lst.stake, Lst.unstake, hk, ha]
  · intro a pv m hk ha
    constructor <;>
      simp [Lst.stake, Lst.unstake, hk, ha, LstProtocol.stake, LstProtocol.unstake]
  · intro a pv m hk ha
    constructor <;>
      simp [Lst.stake, Lst.unstake, hk, ha, LstProtocol.stake, LstProtocol.unstake]
  · intro a pv hk ha
    constructor <;>
      simp [Lst.stake, Lst.unstake, hk, ha, LstProtocol.stake, LstProtocol.unstake]
  · intro uri tag e hne hsplit htag
    unfold Lst.read_resource
    rw [if_neg hne, hsplit, routeParts_detail_err tvlO balO tag e htag]
  · intro uri tag p m hne hsplit htag htv
    unfold Lst.read_resource
    rw [if_neg hne, hsplit, routeParts_tvl_err tvlO balO tag p m htag htv]
  · intro uri addrStr tag hne hsplit haddr
    unfold Lst.read_resource
    rw [if_neg hne, hsplit, routeParts_balance_badaddr tvlO balO addrStr tag haddr]
  · intro uri addrStr a tag p m hne hsplit haddr htag hb
    unfold Lst.read_resource
    rw [if_neg hne, hsplit,
      routeParts_balance_err tvlO balO addrStr a tag p m haddr htag hb]
  · intro uri hne hg
    unfold Lst.read_resource
    rw [if_neg hne, routeParts_noguard tvlO balO _ hg]
  · intro uri p1 net rest hne hsplit hnet
    unfold Lst.read_resource
    rw [if_neg hne, hsplit, routeParts_badnet tvlO balO p1 net rest hnet]

/-- Witness for C6: a rejected key surfaces as invalid-params on a concrete
request. -/
theorem C6_witness :
    (Lst.stake keyFailStub (.sendError "boom") ⟨.SHMON, "z", "1"⟩).1 =
      .error ⟨.invalidParams,
        "Failed to parse private key: invalid private key"⟩ :=
  ((C6_error_taxonomy keyFailStub ⟨.SHMON, "z", "1"⟩ tvlStub balStub).1
    (.sendError "boom") "invalid private key" rfl).1
